import Mathlib

/-
  Verification of the application-bootstrap fragment `main.py`
  (FastAPI backend: two status endpoints, CORS middleware, one mounted
  router, a lifespan hook creating database tables, and a uvicorn entry
  point reading the listening port from the PORT environment variable).

  The fragment is shallowly embedded below.  Handlers and the port
  computation are translated directly from `main.py`.  Behaviour supplied
  by the web framework or the persistence library (CORS header injection,
  router mounting, lifespan ordering, ensure-create of tables) is not part
  of the repository sources; those parts are modelled from the
  specification and are marked as such in their doc comments.
-/

/-- JSON bodies of the shape the two status handlers build: objects whose
values are strings, kept as an ordered field list. -/
structure Json where
  fields : List (String × String)
  deriving DecidableEq, Repr

/-- An inbound HTTP request: method, path, query parameters and headers. -/
structure Request where
  method : String
  path : String
  query : List (String × String)
  headers : List (String × String)
  deriving DecidableEq, Repr

/-- An HTTP response: status code, response headers and JSON body. -/
structure Response where
  status : Nat
  headers : List (String × String)
  body : Json
  deriving DecidableEq, Repr

/-- Handler of `GET /` in `main.py`: returns the fixed message object. -/
def root (_req : Request) : Json :=
  Json.mk [("message", "FastAPI Backend is running!")]

/-- Handler of `GET /health` in `main.py`: returns the fixed status object. -/
def health_check (_req : Request) : Json :=
  Json.mk [("status", "OK"), ("message", "API is healthy")]

/-- The persistence schema is modelled as the list of table names that
exist.  The repository fragment never inspects it beyond the ensure-create
hook. -/
abbrev SchemaState : Type := List String

/-- Dispatch of the two status routes registered in `main.py` on the
application.  A request that matches neither is owned by the mounted
router and yields `none` here.  The handler result is paired with the
schema state to make the absence of side effects explicit: both handlers
return the state unchanged.  The 200 status code is the default response
status attached by the `app.get` registration. -/
def handleRequest (req : Request) (db : SchemaState) :
    Option Response × SchemaState :=
  if req.method = "GET" ∧ req.path = "/" then
    (some { status := 200, headers := [], body := root req }, db)
  else if req.method = "GET" ∧ req.path = "/health" then
    (some { status := 200, headers := [], body := health_check req }, db)
  else
    (none, db)

/-- Digit-sequence tail accepted by the Python `int` constructor: a run
of decimal digits in which single underscores may stand between digits.
`acc` is the value of the digits consumed so far and `lastDigit` records
whether the previous character was a digit (an underscore may only follow
a digit and may not end the sequence). -/
def pyDigitsAux : List Char → Nat → Bool → Option Nat
  | [], acc, lastDigit => if lastDigit then some acc else none
  | c :: rest, acc, lastDigit =>
      if c.isDigit then pyDigitsAux rest (acc * 10 + (c.toNat - 48)) true
      else if c = '_' ∧ lastDigit then pyDigitsAux rest acc false
      else none

/-- A digit sequence must begin with a digit (no leading underscore). -/
def pyParseDigits : List Char → Option Nat
  | [] => none
  | c :: rest =>
      if c.isDigit then pyDigitsAux rest (c.toNat - 48) true else none

/-- Evaluation of the Python `int(s)` constructor on a string: optional
surrounding whitespace, optional sign, then a non-empty digit sequence.
A string of any other shape raises `ValueError`, modelled by `none`. -/
def pyInt (s : String) : Option Int :=
  let cs :=
    ((s.toList.dropWhile (fun c => c.isWhitespace)).reverse.dropWhile
      (fun c => c.isWhitespace)).reverse
  match cs with
  | '+' :: rest => (pyParseDigits rest).map Int.ofNat
  | '-' :: rest => (pyParseDigits rest).map (fun n => -(Int.ofNat n))
  | rest => (pyParseDigits rest).map Int.ofNat

/-- The port computation of the `__main__` block in `main.py`:
`int(os.getenv("PORT", 8000))`.  When the PORT environment variable is
unset, `os.getenv` returns the integer default `8000`, and `int(8000)`
succeeds; when it is set, `int` is applied to the string value and raises
(`none`) on a non-numeric string. -/
def getPort (env : Option String) : Option Int :=
  match env with
  | none => some 8000
  | some s => pyInt s

/-- Modelled from the spec: `Base.metadata.create_all(bind=engine)` lives
in the external SQLAlchemy persistence layer, not in the repository
sources.  The spec describes it as an ensure-create: every schema object
(table) known to the persistence layer is created if absent and left
alone otherwise. -/
def create_all (known : List String) (db : SchemaState) : SchemaState :=
  known.foldl (fun s t => if t ∈ s then s else s ++ [t]) db

/-- Startup phase of the `lifespan` function in `main.py`: the single
statement before the `yield` runs the ensure-create over the tables known
to the persistence layer. -/
def lifespan_startup (tables : List String) (db : SchemaState) : SchemaState :=
  create_all tables db

/-- Teardown phase of the `lifespan` function in `main.py`: the function
body contains no statement after the `yield`, so shutdown performs no
action on the state. -/
def lifespan_shutdown (db : SchemaState) : SchemaState :=
  db

/-- CORS configuration passed to `add_middleware` in `main.py`. -/
def cors_allow_origins : List String := ["*"]

/-- CORS configuration passed to `add_middleware` in `main.py`. -/
def cors_allow_credentials : Bool := true

/-- CORS configuration passed to `add_middleware` in `main.py`. -/
def cors_allow_methods : List String := ["*"]

/-- CORS configuration passed to `add_middleware` in `main.py`. -/
def cors_allow_headers : List String := ["*"]

/-- Response headers contributed by the CORS middleware configured in
`main.py`, derived from the four configuration values above. -/
def corsHeaders : List (String × String) :=
  [("Access-Control-Allow-Origin", String.intercalate ", " cors_allow_origins),
   ("Access-Control-Allow-Credentials",
     if cors_allow_credentials then "true" else "false"),
   ("Access-Control-Allow-Methods", String.intercalate ", " cors_allow_methods),
   ("Access-Control-Allow-Headers", String.intercalate ", " cors_allow_headers)]

/-- Modelled from the spec: the `CORSMiddleware` class is framework code
absent from the repository sources.  The spec states that the configured
allowances are applied uniformly to every response the application
produces, so the middleware is modelled as a wrapper that prepends the
configured CORS headers to the response of any inner handler. -/
def corsMiddleware (inner : Request → Response) (req : Request) : Response :=
  let r := inner req
  { r with headers := corsHeaders ++ r.headers }

/-- Path prefix under which the users router is mounted in `main.py`. -/
def api_v1 : String := "/api/v1"

/-- Modelled from the spec: `app.include_router` is framework code absent
from the repository sources.  The spec states that it merges the routes
of the external router into the application route table, prefixing the
path of each route with the given prefix.  Routes are identified by their
paths here. -/
def include_router (appRoutes : List String) (routerRoutes : List String)
    (pfx : String) : List String :=
  appRoutes ++ routerRoutes.map (fun p => pfx ++ p)

/-- The route table built by `main.py`: the application starts with no
routes, `include_router` mounts the users router under `/api/v1`, and the
two decorated status routes are registered afterwards. -/
def buildRoutes (usersRoutes : List String) : List String :=
  include_router [] usersRoutes api_v1 ++ ["/", "/health"]

/-- Lifecycle phases of the application as the spec describes them:
unbuilt, built but not yet serving, serving, and aborted after a failed
startup hook. -/
inductive Phase where
  | unbuilt
  | built
  | serving
  | failed
  deriving DecidableEq, Repr

/-- Observable state of one execution of the process: lifecycle phase,
persistence schema, whether the startup hook has run to completion, and
how many requests have been served. -/
structure SysState where
  phase : Phase
  db : SchemaState
  hookDone : Bool
  served : Nat

/-- Modelled from the spec: the lifespan protocol enforced by the server
(uvicorn/Starlette) is framework code absent from the repository sources.
The spec prescribes that the startup hook runs to completion before the
accept loop begins, and that a hook failure is fatal: the process must
not reach the serving phase.  `hookOk` records whether the hook (schema
creation against the external engine) succeeds in this execution, and
`tables` are the schema objects known to the persistence layer. -/
inductive Step (hookOk : Bool) (tables : List String) :
    SysState → SysState → Prop where
  | build (db : SchemaState) :
      Step hookOk tables ⟨.unbuilt, db, false, 0⟩ ⟨.built, db, false, 0⟩
  | startup_ok (db : SchemaState) (h : hookOk = true) :
      Step hookOk tables ⟨.built, db, false, 0⟩
        ⟨.serving, lifespan_startup tables db, true, 0⟩
  | startup_fail (db : SchemaState) (h : hookOk = false) :
      Step hookOk tables ⟨.built, db, false, 0⟩ ⟨.failed, db, false, 0⟩
  | serve (db : SchemaState) (n : Nat) :
      Step hookOk tables ⟨.serving, db, true, n⟩ ⟨.serving, db, true, n + 1⟩

/-- States reachable from the initial (unbuilt) state of a process whose
persistence layer starts in schema state `db0`. -/
def Reachable (hookOk : Bool) (tables : List String) (db0 : SchemaState)
    (s : SysState) : Prop :=
  Relation.ReflTransGen (Step hookOk tables) ⟨.unbuilt, db0, false, 0⟩ s

/-- Unfolding of the ensure-create over a first table. -/
theorem create_all_cons (k : String) (ks : List String) (db : SchemaState) :
    create_all (k :: ks) db =
      create_all ks (if k ∈ db then db else db ++ [k]) := rfl

/-- The ensure-create never removes a table. -/
theorem mem_create_all_of_mem (known : List String) (db : SchemaState)
    (t : String) (h : t ∈ db) : t ∈ create_all known db := by
  induction known generalizing db with
  | nil => exact h
  | cons k ks ih =>
      rw [create_all_cons]
      apply ih
      by_cases hk : k ∈ db
      · rwa [if_pos hk]
      · rw [if_neg hk]
        exact List.mem_append_left _ h

/-- After the ensure-create, every known table exists. -/
theorem mem_create_all_of_mem_known (known : List String) (db : SchemaState)
    (t : String) (h : t ∈ known) : t ∈ create_all known db := by
  induction known generalizing db with
  | nil => cases h
  | cons k ks ih =>
      rw [create_all_cons]
      rcases List.mem_cons.mp h with rfl | h
      · apply mem_create_all_of_mem
        by_cases hk : t ∈ db
        · rwa [if_pos hk]
        · rw [if_neg hk]
          exact List.mem_append_right _ (List.mem_singleton.mpr rfl)
      · exact ih _ h

/-- The ensure-create is the identity on a schema that already holds
every known table. -/
theorem create_all_of_subset (known : List String) (db : SchemaState)
    (h : ∀ t ∈ known, t ∈ db) : create_all known db = db := by
  induction known generalizing db with
  | nil => rfl
  | cons k ks ih =>
      rw [create_all_cons, if_pos (h k (List.mem_cons_self k ks))]
      exact ih db (fun t ht => h t (List.mem_cons_of_mem k ht))

/-- Claim C1: for every request to GET / (regardless of query parameters
or headers supplied), the handler returns exactly the JSON body with the
single field message set to "FastAPI Backend is running!", with HTTP
status 200, and performs no side effects (the schema state is returned
unchanged). -/
theorem C1_root_fixed_response (req : Request) (db : SchemaState)
    (hm : req.method = "GET") (hp : req.path = "/") :
    handleRequest req db =
      (some { status := 200, headers := [],
              body := Json.mk [("message", "FastAPI Backend is running!")] },
       db) := by
  simp [handleRequest, hm, hp, root]

/-- Witness for C1 at a concrete request carrying a query parameter and a
header, against a non-empty schema state. -/
theorem C1_root_witness :
    handleRequest
        ⟨"GET", "/", [("verbose", "1")], [("X-Custom", "yes")]⟩ ["users"] =
      (some { status := 200, headers := [],
              body := Json.mk [("message", "FastAPI Backend is running!")] },
       ["users"]) :=
  C1_root_fixed_response _ _ rfl rfl

/-- Claim C2: for every request to GET /health, the handler returns
exactly the JSON body with status "OK" and message "API is healthy", with
HTTP status 200, no input consumed and no side effects; the result is
always `some` response, so the handler cannot fail. -/
theorem C2_health_fixed_response (req : Request) (db : SchemaState)
    (hm : req.method = "GET") (hp : req.path = "/health") :
    handleRequest req db =
      (some { status := 200, headers := [],
              body := Json.mk [("status", "OK"), ("message", "API is healthy")] },
       db) ∧ (handleRequest req db).1.isSome = true := by
  constructor
  · simp [handleRequest, hm, hp, health_check]
  · simp [handleRequest, hm, hp]

/-- Witness for C2 at a concrete request with a query parameter and a
header. -/
theorem C2_health_witness :
    handleRequest
        ⟨"GET", "/health", [("probe", "ready")], [("Accept", "*/*")]⟩ [] =
      (some { status := 200, headers := [],
              body := Json.mk [("status", "OK"), ("message", "API is healthy")] },
       []) ∧
    (handleRequest
        ⟨"GET", "/health", [("probe", "ready")], [("Accept", "*/*")]⟩ []).1.isSome
      = true :=
  C2_health_fixed_response _ _ rfl rfl

/-- Claim C3: every response produced by the application behind the
configured CORS middleware, whatever the inner handler (including error
responses from routes mounted under /api/v1), carries the header
Access-Control-Allow-Origin set to the wildcard together with the
configured allowances: credentials allowed, all methods, all headers. -/
theorem C3_cors_every_response (inner : Request → Response) (req : Request) :
    ("Access-Control-Allow-Origin", "*") ∈ (corsMiddleware inner req).headers ∧
    ("Access-Control-Allow-Credentials", "true")
      ∈ (corsMiddleware inner req).headers ∧
    ("Access-Control-Allow-Methods", "*") ∈ (corsMiddleware inner req).headers ∧
    ("Access-Control-Allow-Headers", "*") ∈ (corsMiddleware inner req).headers := by
  simp only [corsMiddleware]
  refine ⟨?_, ?_, ?_, ?_⟩ <;> exact List.mem_append_left _ (by decide)

/-- Claim C4 counterexample: with the PORT environment variable set to
the non-numeric string "abc", the port computation of `main.py` raises
(`none`); it does not fall back to the default 8000 as the claim
states. -/
theorem C4_port_counterexample :
    getPort (some "abc") = none ∧ ¬ getPort (some "abc") = some 8000 := by
  constructor
  · decide
  · decide

/-- Claim C4 (amended): if PORT is unset the service listens on port
8000; if PORT is set to a string that parses as an integer it listens on
that value; but if PORT is set to a non-numeric value the computation
`int(os.getenv("PORT", 8000))` raises and startup fails — no fallback to
8000 occurs. -/
theorem C4_port_amended (s : String) (n : Int) (h : pyInt s = some n) :
    getPort none = some 8000 ∧ getPort (some s) = some n ∧
    getPort (some "abc") = none :=
  ⟨rfl, h, by decide⟩

/-- Witness for C4 at the concrete numeric value "9090". -/
theorem C4_port_witness :
    getPort none = some 8000 ∧ getPort (some "9090") = some 9090 ∧
    getPort (some "abc") = none :=
  C4_port_amended "9090" 9090 (by decide)

/-- Claim C5: in every execution, no request is served before the startup
hook has run to completion; every reachable state that has served a
request, and every reachable state in the serving phase, has the hook
completed. -/
theorem C5_no_request_before_hook (hookOk : Bool) (tables : List String)
    (db0 : SchemaState) (s : SysState) (h : Reachable hookOk tables db0 s) :
    (0 < s.served → s.hookDone = true) ∧
    (s.phase = Phase.serving → s.hookDone = true) := by
  induction h with
  | refl => exact ⟨fun h => absurd h (Nat.lt_irrefl 0), fun h => Phase.noConfusion h⟩
  | tail _ hstep ih => cases hstep <;> simp_all

/-- Witness for C5: the state reached by building, running the startup
hook and serving one request has the hook completed. -/
theorem C5_witness : (SysState.mk Phase.serving [] true 1).hookDone = true := by
  have htr : Reachable true [] [] ⟨Phase.serving, [], true, 1⟩ := by
    refine Relation.ReflTransGen.head (Step.build []) ?_
    refine Relation.ReflTransGen.head (Step.startup_ok [] rfl) ?_
    exact Relation.ReflTransGen.single (Step.serve [] 0)
  exact (C5_no_request_before_hook true [] [] _ htr).1 (by decide)

/-- Claim C6: the startup hook is idempotent: on a schema that already
holds every known table the ensure-create returns the schema unchanged
(and, being a total function, does not fail), and running it twice equals
running it once. -/
theorem C6_startup_hook_idempotent (known : List String) (db : SchemaState) :
    ((∀ t ∈ known, t ∈ db) → create_all known db = db) ∧
    create_all known (create_all known db) = create_all known db :=
  ⟨create_all_of_subset known db,
   create_all_of_subset known (create_all known db)
     (fun t ht => mem_create_all_of_mem_known known db t ht)⟩

/-- Witness for C6 on the concrete one-table schema. -/
theorem C6_witness :
    create_all ["users"] ["users"] = ["users"] ∧
    create_all ["users"] (create_all ["users"] []) = create_all ["users"] [] :=
  ⟨(C6_startup_hook_idempotent ["users"] ["users"]).1 (by decide),
   (C6_startup_hook_idempotent ["users"] []).2⟩

/-- Claim C7: if the startup hook fails, the process never reaches the
serving phase and no request is ever served in that execution. -/
theorem C7_hook_failure_fatal (tables : List String) (db0 : SchemaState)
    (s : SysState) (h : Reachable false tables db0 s) :
    s.phase ≠ Phase.serving ∧ s.served = 0 := by
  induction h with
  | refl => exact ⟨fun h => Phase.noConfusion h, rfl⟩
  | tail _ hstep ih => cases hstep <;> simp_all

/-- Witness for C7: the state reached after a failing startup hook is the
aborted state, not serving, with zero requests served. -/
theorem C7_witness :
    (SysState.mk Phase.failed [] false 0).phase ≠ Phase.serving ∧
    (SysState.mk Phase.failed [] false 0).served = 0 := by
  have htr : Reachable false [] [] ⟨Phase.failed, [], false, 0⟩ :=
    Relation.ReflTransGen.head (Step.build [])
      (Relation.ReflTransGen.single (Step.startup_fail [] rfl))
  exact C7_hook_failure_fatal [] [] _ htr

/-- Claim C8: mounting the users router merges every one of its routes
into the application route table with the path prefixed by exactly
/api/v1, and every route contributed by the mount is such a prefixed
route (no route of the users router appears unprefixed). -/
theorem C8_mount_prefixed (users : List String) :
    (∀ q ∈ users, (api_v1 ++ q) ∈ buildRoutes users) ∧
    (∀ p ∈ include_router [] users api_v1, ∃ q ∈ users, p = api_v1 ++ q) := by
  constructor
  · intro q hq
    exact List.mem_append_left _
      (List.mem_append_right _ (List.mem_map.mpr ⟨q, hq, rfl⟩))
  · intro p hp
    simp only [include_router, List.nil_append, List.mem_map] at hp
    obtain ⟨q, hq, rfl⟩ := hp
    exact ⟨q, hq, rfl⟩

/-- Witness for C8 on a one-route users router. -/
theorem C8_witness : (api_v1 ++ "/users") ∈ buildRoutes ["/users"] :=
  (C8_mount_prefixed ["/users"]).1 "/users" (by decide)

/-- Claim C9: the two status handlers are deterministic: any two
invocations of root return equal values, and any two invocations of
health_check return equal values, independent of request data. -/
theorem C9_handlers_deterministic (r1 r2 : Request) :
    root r1 = root r2 ∧ health_check r1 = health_check r2 :=
  ⟨rfl, rfl⟩

/-- Claim C10: the teardown phase of the lifespan hook is a no-op: the
shutdown transition leaves any schema state unchanged, in particular the
state produced by the startup phase; only the startup phase ever mutates
the schema. -/
theorem C10_shutdown_noop (tables : List String) (db : SchemaState) :
    lifespan_shutdown db = db ∧
    lifespan_shutdown (lifespan_startup tables db) = lifespan_startup tables db :=
  ⟨rfl, rfl⟩
